import Mathlib

/-!
Shallow embedding of `src/teller/http.go` (package `teller`) from the
codeaudit/teller repository, together with proofs about the HTTP front
door: config validation, the security-middleware setup performed by
`Run()`, the listener-error classification closure `handleListenErr`,
the `Shutdown()` state transition, and the `/api/bind` and `/api/status`
endpoint handlers with their JSON responses.

External collaborators (the skycoin `cipher` address decoder, the
binding/status service, the current clock) are parameters of the
embedding, exactly as they are injection points of the Go code.
-/

/-- Modelled from the spec: `scanner.CoinTypeBTC`, the single member of the
supported-currency set. The `scanner` package is not part of this
repository snapshot; the handler documentation in `http.go` shows the
recognized value as "BTC". -/
def CoinTypeBTC : String := "BTC"

/-- Throttle is used for ratelimiting requests to the http server
(`Max` requests per `Duration`, duration in nanoseconds). -/
structure Throttle where
  Max : Int
  Duration : Int
deriving DecidableEq, Repr

/-- HTTPConfig configures the HTTP service. `StartAt` is a Unix
timestamp standing for the Go `time.Time`. -/
structure HTTPConfig where
  HTTPAddr : String
  HTTPSAddr : String
  StaticDir : String
  StartAt : Int
  AutoTLSHost : String
  TLSCert : String
  TLSKey : String
  Throttle : Throttle
deriving DecidableEq, Repr

/-- Embedding of `HTTPConfig.Validate`: returns `some errorMessage` where
the Go method returns a non-nil error, `none` where it returns nil.
The five checks appear in the source order. -/
def HTTPConfig.Validate (c : HTTPConfig) : Option String :=
  if c.HTTPAddr = "" ∧ c.HTTPSAddr = "" then
    some "at least one of -http-service-addr, -https-service-addr must be set"
  else if c.HTTPSAddr ≠ "" ∧ c.AutoTLSHost = "" ∧ (c.TLSCert = "" ∨ c.TLSKey = "") then
    some "when using -tls, either -auto-tls-host or both -tls-cert and -tls-key must be set"
  else if (c.TLSCert = "" ∧ c.TLSKey ≠ "") ∨ (c.TLSCert ≠ "" ∧ c.TLSKey = "") then
    some "-tls-cert and -tls-key must be set or unset together"
  else if c.AutoTLSHost ≠ "" ∧ (c.TLSKey ≠ "" ∨ c.TLSCert ≠ "") then
    some "either use -auto-tls-host or both -tls-key and -tls-cert"
  else if c.HTTPSAddr = "" ∧ (c.AutoTLSHost ≠ "" ∨ c.TLSKey ≠ "" ∨ c.TLSCert ≠ "") then
    some "-auto-tls-host or -tls-key or -tls-cert is set but -tls is not enabled"
  else
    none

/-- Claim C4: `Validate` returns an error whenever both listen addresses
are empty; whenever `httpsAddr` is set but neither `autoTLSHost` nor a
full cert/key pair is; whenever exactly one of `tlsCert`/`tlsKey` is set;
whenever both `autoTLSHost` and a cert/key pair are set; and whenever a
TLS option is set while `httpsAddr` is empty. A configuration with only
`httpAddr` set (all TLS fields empty) validates to nil. -/
theorem validate_spec :
    (∀ c : HTTPConfig, c.HTTPAddr = "" → c.HTTPSAddr = "" →
      (HTTPConfig.Validate c).isSome = true) ∧
    (∀ c : HTTPConfig, c.HTTPSAddr ≠ "" → c.AutoTLSHost = "" →
      ¬ (c.TLSCert ≠ "" ∧ c.TLSKey ≠ "") →
      (HTTPConfig.Validate c).isSome = true) ∧
    (∀ c : HTTPConfig,
      ((c.TLSCert = "" ∧ c.TLSKey ≠ "") ∨ (c.TLSCert ≠ "" ∧ c.TLSKey = "")) →
      (HTTPConfig.Validate c).isSome = true) ∧
    (∀ c : HTTPConfig, c.AutoTLSHost ≠ "" → c.TLSCert ≠ "" → c.TLSKey ≠ "" →
      (HTTPConfig.Validate c).isSome = true) ∧
    (∀ c : HTTPConfig, c.HTTPSAddr = "" →
      (c.AutoTLSHost ≠ "" ∨ c.TLSCert ≠ "" ∨ c.TLSKey ≠ "") →
      (HTTPConfig.Validate c).isSome = true) ∧
    (∀ c : HTTPConfig, c.HTTPAddr ≠ "" → c.HTTPSAddr = "" → c.AutoTLSHost = "" →
      c.TLSCert = "" → c.TLSKey = "" →
      HTTPConfig.Validate c = none) := by
  refine ⟨?_, ?_, ?_, ?_, ?_, ?_⟩ <;>
    intro c <;> intros <;>
    unfold HTTPConfig.Validate <;>
    split_ifs <;> simp_all

/-- Witness for claim C4: each clause of `validate_spec` discharged at a
concrete configuration. -/
theorem validate_spec_witness :
    (HTTPConfig.Validate ⟨"", "", "", 0, "", "", "", ⟨1, 1⟩⟩).isSome = true ∧
    (HTTPConfig.Validate ⟨":80", ":443", "", 0, "", "", "", ⟨1, 1⟩⟩).isSome = true ∧
    (HTTPConfig.Validate ⟨":80", "", "", 0, "", "cert.pem", "", ⟨1, 1⟩⟩).isSome = true ∧
    (HTTPConfig.Validate ⟨":80", ":443", "", 0, "h.example.com", "cert.pem", "key.pem", ⟨1, 1⟩⟩).isSome = true ∧
    (HTTPConfig.Validate ⟨":80", "", "", 0, "h.example.com", "", "", ⟨1, 1⟩⟩).isSome = true ∧
    HTTPConfig.Validate ⟨":80", "", "", 0, "", "", "", ⟨1, 1⟩⟩ = none :=
  ⟨validate_spec.1 _ rfl rfl,
   validate_spec.2.1 _ (by decide) rfl (by decide),
   validate_spec.2.2.1 _ (Or.inr ⟨by decide, rfl⟩),
   validate_spec.2.2.2.1 _ (by decide) (by decide) (by decide),
   validate_spec.2.2.2.2.1 _ rfl (Or.inl (by decide)),
   validate_spec.2.2.2.2.2 _ (by decide) rfl rfl rfl rfl⟩

/-- Embedding of the `secure.Options` value built by
`configureSecureMiddleware` in `http.go` (the fields set there). -/
structure SecureOptions where
  AllowedHosts : List String
  SSLRedirect : Bool
  SSLHost : String
  STSSeconds : Nat
  STSIncludeSubdomains : Bool
  STSPreload : Bool
  FrameDeny : Bool
  ContentTypeNosniff : Bool
  BrowserXssFilter : Bool
  ReferrerPolicy : String
deriving DecidableEq, Repr

/-- Embedding of `configureSecureMiddleware(sslHost, allowedHosts)`:
`sslRedirect` starts true and is cleared when `sslHost` is empty. -/
def configureSecureMiddleware (sslHost : String) (allowedHosts : List String) : SecureOptions :=
  { AllowedHosts := allowedHosts
    SSLRedirect := decide (sslHost ≠ "")
    SSLHost := sslHost
    STSSeconds := 31536000
    STSIncludeSubdomains := false
    STSPreload := false
    FrameDeny := true
    ContentTypeNosniff := true
    BrowserXssFilter := true
    ReferrerPolicy := "no-referrer" }

/-- Embedding of the `allowedHosts` / `sslHost` computation at the top of
`httpServer.Run`: empty list means all hosts allowed; with `AutoTLSHost`
unset the SSL host is `HTTPSAddr`, otherwise both are `AutoTLSHost`. -/
def runSecuritySetup (c : HTTPConfig) : List String × String :=
  if c.AutoTLSHost = "" then ([], c.HTTPSAddr)
  else ([c.AutoTLSHost], c.AutoTLSHost)

/-- Claim C8: Run builds the security middleware so that with a non-empty
`autoTLSHost` the allowed-host list is exactly that host and the SSL host
equals it; otherwise the allowed-host list is empty (all hosts allowed)
and the SSL host is `httpsAddr`, and when that is empty SSL redirect is
disabled in the resulting middleware options. -/
theorem run_secure_setup_spec (c : HTTPConfig) :
    (c.AutoTLSHost ≠ "" →
      (runSecuritySetup c).1 = [c.AutoTLSHost] ∧
      (runSecuritySetup c).2 = c.AutoTLSHost ∧
      (configureSecureMiddleware (runSecuritySetup c).2 (runSecuritySetup c).1).SSLHost
        = c.AutoTLSHost ∧
      (configureSecureMiddleware (runSecuritySetup c).2 (runSecuritySetup c).1).AllowedHosts
        = [c.AutoTLSHost]) ∧
    (c.AutoTLSHost = "" →
      (runSecuritySetup c).1 = [] ∧
      (runSecuritySetup c).2 = c.HTTPSAddr ∧
      (configureSecureMiddleware (runSecuritySetup c).2 (runSecuritySetup c).1).SSLHost
        = c.HTTPSAddr ∧
      (c.HTTPSAddr = "" →
        (configureSecureMiddleware (runSecuritySetup c).2 (runSecuritySetup c).1).SSLRedirect
          = false)) := by
  unfold runSecuritySetup configureSecureMiddleware
  by_cases h : c.AutoTLSHost = "" <;> simp [h]

/-- Witness for claim C8: both branches of `run_secure_setup_spec`
discharged at concrete configurations. -/
theorem run_secure_setup_spec_witness :
    ((runSecuritySetup ⟨":80", ":443", "", 0, "teller.example.com", "", "", ⟨1, 1⟩⟩).1
        = ["teller.example.com"] ∧
      (runSecuritySetup ⟨":80", ":443", "", 0, "teller.example.com", "", "", ⟨1, 1⟩⟩).2
        = "teller.example.com" ∧
      (configureSecureMiddleware
          (runSecuritySetup ⟨":80", ":443", "", 0, "teller.example.com", "", "", ⟨1, 1⟩⟩).2
          (runSecuritySetup ⟨":80", ":443", "", 0, "teller.example.com", "", "", ⟨1, 1⟩⟩).1).SSLHost
        = "teller.example.com" ∧
      (configureSecureMiddleware
          (runSecuritySetup ⟨":80", ":443", "", 0, "teller.example.com", "", "", ⟨1, 1⟩⟩).2
          (runSecuritySetup ⟨":80", ":443", "", 0, "teller.example.com", "", "", ⟨1, 1⟩⟩).1).AllowedHosts
        = ["teller.example.com"]) ∧
    ((runSecuritySetup ⟨":80", "", "", 0, "", "", "", ⟨1, 1⟩⟩).1 = [] ∧
      (runSecuritySetup ⟨":80", "", "", 0, "", "", "", ⟨1, 1⟩⟩).2 = "" ∧
      (configureSecureMiddleware
          (runSecuritySetup ⟨":80", "", "", 0, "", "", "", ⟨1, 1⟩⟩).2
          (runSecuritySetup ⟨":80", "", "", 0, "", "", "", ⟨1, 1⟩⟩).1).SSLHost = "" ∧
      (configureSecureMiddleware
          (runSecuritySetup ⟨":80", "", "", 0, "", "", "", ⟨1, 1⟩⟩).2
          (runSecuritySetup ⟨":80", "", "", 0, "", "", "", ⟨1, 1⟩⟩).1).SSLRedirect = false) :=
  ⟨(run_secure_setup_spec _).1 (by decide),
   let h := (run_secure_setup_spec ⟨":80", "", "", 0, "", "", "", ⟨1, 1⟩⟩).2 rfl
   ⟨h.1, h.2.1, h.2.2.1, h.2.2.2 rfl⟩⟩

/-- Embedding of the `handleListenErr` closure inside `httpServer.Run`:
`listenResult` is the value returned by the wrapped listen function
(`some msg` for a non-nil error), `quitClosed` says whether the select on
`hs.quit` finds the shutdown gate closed at the moment the error is
observed. The result is what `Run` returns on that path. -/
def handleListenErr (quitClosed : Bool) (listenResult : Option String) : Option String :=
  match listenResult with
  | some err => if quitClosed then none else some ("http serve failed: " ++ err)
  | none => none

/-- Claim C7: a listener error observed with the shutdown gate already
closed makes Run return nil, while a listener error observed with the
gate open makes Run return a non-nil error wrapping the listener error. -/
theorem handle_listen_err_spec :
    (∀ e : String, handleListenErr true (some e) = none) ∧
    (∀ e : String,
      handleListenErr false (some e) = some ("http serve failed: " ++ e)) := by
  constructor <;> intro e <;> rfl

/-- State of one Go channel as seen by `close`: a nil channel, an open
channel, or an already-closed channel. `close` panics on nil and on
closed channels. -/
inductive ChanState where
  | chanNil
  | chanOpened
  | chanClosed
deriving DecidableEq, Repr

/-- Embedding of Go `close(ch)`: `none` is a panic. -/
def closeChan : ChanState → Option ChanState
  | ChanState.chanOpened => some ChanState.chanClosed
  | _ => none

/-- The fields of `httpServer` that `Shutdown` reads and writes: the
`quit` gate and whether each listener pointer is non-nil. -/
structure HTTPServerState where
  quit : ChanState
  httpListener : Bool
  httpsListener : Bool
deriving DecidableEq, Repr

/-- Outcome of a completed `Shutdown` call: the new server state, how
many channel close operations ran, and how many listener drains ran. -/
structure ShutdownResult where
  state : HTTPServerState
  channelCloses : Nat
  listenerShutdowns : Nat
deriving DecidableEq, Repr

/-- Embedding of `httpServer.Shutdown`: close `quit` if non-nil (panic,
modelled as `none`, if it is already closed), drain each non-nil
listener, then reset `quit` to nil. -/
def Shutdown (s : HTTPServerState) : Option ShutdownResult :=
  let gate : Option Nat :=
    if s.quit = ChanState.chanNil then some 0
    else match closeChan s.quit with
      | some _ => some 1
      | none => none
  match gate with
  | none => none
  | some n =>
    some { state := { quit := ChanState.chanNil
                      httpListener := s.httpListener
                      httpsListener := s.httpsListener }
           channelCloses := n
           listenerShutdowns :=
             (if s.httpListener then 1 else 0) + (if s.httpsListener then 1 else 0) }

/-- Claim C9: Shutdown with a nil quit gate and no listeners performs no
close operation and no listener drain and does not panic; and after any
completed Shutdown the quit gate is nil again, so an immediately
following Shutdown does not panic either. -/
theorem shutdown_safe :
    (∀ s : HTTPServerState, s.quit = ChanState.chanNil →
      s.httpListener = false → s.httpsListener = false →
      Shutdown s = some { state := s, channelCloses := 0, listenerShutdowns := 0 }) ∧
    (∀ s : HTTPServerState, ∀ r : ShutdownResult, Shutdown s = some r →
      r.state.quit = ChanState.chanNil ∧ (Shutdown r.state).isSome = true) := by
  constructor
  · intro s hq h1 h2
    cases s
    simp_all [Shutdown]
  · intro s r h
    unfold Shutdown at h
    cases hq : s.quit <;> simp [hq, closeChan] at h <;> simp [← h, Shutdown]

/-- Witness for claim C9: both clauses of `shutdown_safe` discharged at
concrete server states. -/
theorem shutdown_safe_witness :
    Shutdown ⟨ChanState.chanNil, false, false⟩
      = some { state := ⟨ChanState.chanNil, false, false⟩,
               channelCloses := 0, listenerShutdowns := 0 } ∧
    ((⟨⟨ChanState.chanNil, true, false⟩, 1, 1⟩ : ShutdownResult).state.quit
        = ChanState.chanNil ∧
      (Shutdown (⟨⟨ChanState.chanNil, true, false⟩, 1, 1⟩ : ShutdownResult).state).isSome
        = true) :=
  ⟨shutdown_safe.1 _ rfl rfl rfl,
   shutdown_safe.2 ⟨ChanState.chanOpened, true, false⟩ _ (by decide)⟩

/-- A deposit-status record as produced by the external exchange
subsystem; its contents are passed through unchanged, so it is kept
abstract as a tagged payload. -/
structure DepositStatus where
  payload : String
deriving DecidableEq, Repr

/-- BindResponse, the http response struct for /api/bind. -/
structure BindResponse where
  DepositAddress : String
  CoinType : String
deriving DecidableEq, Repr

/-- The decoded JSON request body of /api/bind (`bindRequest`). -/
structure bindRequest where
  SkyAddr : String
  CoinType : String
deriving DecidableEq, Repr

/-- StatusResponse, the http response struct for /api/status. -/
structure StatusResponse where
  Statuses : List DepositStatus
deriving DecidableEq, Repr

/-- Observable actions a handler performs, in order: header writes on the
ResponseWriter, error bodies written through `httputil.ErrResponse`
(message `none` when `errorResponse` passes only the status code), JSON
success bodies written through `httputil.JSONResponse`, and the calls
made to the external service. -/
inductive Event where
  | setHeader (name value : String)
  | errResp (code : Nat) (msg : Option String)
  | jsonResp (resp : BindResponse)
  | jsonStatusResp (resp : StatusResponse)
  | callBindAddress (skyAddr : String)
  | callGetDepositStatuses (skyAddr : String)
deriving DecidableEq, Repr

/-- The environment a handler closure captures: the skycoin address
decoder (`cipher.DecodeBase58Address`), the evaluation of
`time.Now().UTC().After(startAt.UTC())` at request time, the printed form
of `startAt`, and the two service methods. -/
structure HandlerEnv where
  decodeBase58Address : String → Except String Unit
  nowAfterStart : Bool
  startAtStr : String
  bindAddress : String → Except String String
  getDepositStatuses : String → Except String (List DepositStatus)

/-- An incoming request to the bind endpoint: method, Content-Type
header value, and the result of JSON-decoding its body (`none` when the
decoder fails). -/
structure BindHTTPRequest where
  method : String
  contentType : String
  jsonBody : Option bindRequest
deriving DecidableEq, Repr

/-- An incoming request to the status endpoint: method and the value of
the `skyaddr` query parameter (empty when absent). -/
structure StatusHTTPRequest where
  method : String
  querySkyAddr : String
deriving DecidableEq, Repr

/-- Embedding of `validMethod`: events written and whether the method is
allowed. On rejection it sets the Allow header to the joined list and
writes a 405 error body via `errorResponse` (status code only). -/
def validMethod (method : String) (allowed : List String) : List Event × Bool :=
  if method ∈ allowed then ([], true)
  else ([Event.setHeader "Allow" (String.intercalate ", " allowed),
         Event.errResp 405 none], false)

/-- Embedding of `verifySkycoinAddress`: a 400 error body carrying the
decoder's error text when the address does not decode. -/
def verifySkycoinAddress (env : HandlerEnv) (skyAddr : String) : List Event × Bool :=
  match env.decodeBase58Address skyAddr with
  | Except.error e =>
    ([Event.errResp 400 (some ("Invalid skycoin address: " ++ e))], false)
  | Except.ok _ => ([], true)

/-- Embedding of `readyToStart`: passes when the current UTC time is
after `startAt`, else writes a 403 error body with the explanatory
message. -/
def readyToStart (env : HandlerEnv) : List Event × Bool :=
  if env.nowAfterStart then ([], true)
  else ([Event.errResp 403 (some ("Event starts at " ++ env.startAtStr))], false)

/-- Embedding of the `switch bindReq.CoinType` in `BindHandler`. As in
the source, the error cases write a 400 error body through
`errorResponse` but do not return from the handler. -/
def coinTypeSwitch (coinType : String) : List Event :=
  if coinType = CoinTypeBTC then []
  else if coinType = "" then [Event.errResp 400 none]
  else [Event.errResp 400 none]

/-- Embedding of `BindHandler`: the full event trace the handler writes
for one request. Control flow follows the source line by line; in
particular the coin-type switch falls through to the rest of the handler
even after writing an error body. -/
def BindHandler (env : HandlerEnv) (r : BindHTTPRequest) : List Event :=
  Event.setHeader "Accept" "application/json" ::
  (let vm := validMethod r.method ["POST"]
   if ¬ vm.2 then vm.1
   else if r.contentType ≠ "application/json" then [Event.errResp 415 none]
   else
     match r.jsonBody with
     | none => [Event.errResp 400 none]
     | some req =>
       if req.SkyAddr = "" then [Event.errResp 400 none]
       else
         coinTypeSwitch req.CoinType ++
         (let va := verifySkycoinAddress env req.SkyAddr
          if ¬ va.2 then va.1
          else
            let rs := readyToStart env
            if ¬ rs.2 then rs.1
            else
              Event.callBindAddress req.SkyAddr ::
              match env.bindAddress req.SkyAddr with
              | Except.error e => [Event.errResp 400 (some e)]
              | Except.ok btcAddr =>
                [Event.jsonResp { DepositAddress := btcAddr, CoinType := CoinTypeBTC }]))

/-- Embedding of `StatusHandler`: the full event trace the handler
writes for one request. -/
def StatusHandler (env : HandlerEnv) (r : StatusHTTPRequest) : List Event :=
  let vm := validMethod r.method ["GET"]
  if ¬ vm.2 then vm.1
  else if r.querySkyAddr = "" then [Event.errResp 400 none]
  else
    let va := verifySkycoinAddress env r.querySkyAddr
    if ¬ va.2 then va.1
    else
      let rs := readyToStart env
      if ¬ rs.2 then rs.1
      else
        Event.callGetDepositStatuses r.querySkyAddr ::
        match env.getDepositStatuses r.querySkyAddr with
        | Except.error e => [Event.errResp 400 (some e)]
        | Except.ok sts => [Event.jsonStatusResp { Statuses := sts }]

/-- The status code an event causes to be written, if any: error bodies
carry their code, JSON bodies trigger an implicit 200. -/
def eventStatusCode : Event → Option Nat
  | Event.errResp code _ => some code
  | Event.jsonResp _ => some 200
  | Event.jsonStatusResp _ => some 200
  | _ => none

/-- The HTTP status of a trace: the first written status wins, as with
`ResponseWriter.WriteHeader`, whose later calls are ignored. -/
def responseStatus (tr : List Event) : Option Nat :=
  tr.findSome? eventStatusCode

/-- Whether an event writes a JSON error body. -/
def isErrorBody : Event → Bool
  | Event.errResp _ _ => true
  | _ => false

/-- Whether an event writes any response body. -/
def writesBody : Event → Bool
  | Event.errResp _ _ => true
  | Event.jsonResp _ => true
  | Event.jsonStatusResp _ => true
  | _ => false

/-- Number of JSON error bodies written in a trace. -/
def errorBodyCount (tr : List Event) : Nat := (tr.filter isErrorBody).length

/-- Number of response bodies written in a trace. -/
def bodyCount (tr : List Event) : Nat := (tr.filter writesBody).length

/-- Whether the trace contains a call to `service.BindAddress`. -/
def bindAddressCalled (tr : List Event) : Bool :=
  tr.any fun e => match e with
    | Event.callBindAddress _ => true
    | _ => false

/-- Whether the trace contains any call to the external service. -/
def serviceCalled (tr : List Event) : Bool :=
  tr.any fun e => match e with
    | Event.callBindAddress _ => true
    | Event.callGetDepositStatuses _ => true
    | _ => false

/-- Field names present in the JSON encoding of a `StatusResponse`. The
`statuses` field carries the `omitempty` option, so it is omitted when
the slice is empty. -/
def statusResponseJSONFields (resp : StatusResponse) : List String :=
  if resp.Statuses.isEmpty then [] else ["statuses"]

/-- Whether some JSON success body in the trace has the `statuses` field
present in its encoding. -/
def statusesFieldPresent (tr : List Event) : Bool :=
  tr.any fun e => match e with
    | Event.jsonStatusResp resp => (statusResponseJSONFields resp).contains "statuses"
    | _ => false

/-- Claim C1 (code bug witness): a POST bind request with JSON content
type, a well-formed body, a non-empty valid sky address and the
unsupported coin type "ETH", evaluated after the start time against a
service that would succeed. The handler writes the 400 error body, but
the coin-type switch has no return statements, so execution falls
through and `service.BindAddress` is called anyway, and a second
(success) body is written after the error body. -/
theorem bind_coin_type_fallthrough :
    responseStatus (BindHandler
      { decodeBase58Address := fun _ => Except.ok ()
        nowAfterStart := true
        startAtStr := "2017-08-01 00:00:00 +0000 UTC"
        bindAddress := fun _ => Except.ok "1F1tAaz5x1HUXrCNLbtMDqcw6o5GNn4xqX"
        getDepositStatuses := fun _ => Except.ok [] }
      { method := "POST", contentType := "application/json"
        jsonBody := some { SkyAddr := "2ZqW8HDDAVoJaqn2MnMtpeVgjVDFZqe8ikF"
                           CoinType := "ETH" } }) = some 400 ∧
    bindAddressCalled (BindHandler
      { decodeBase58Address := fun _ => Except.ok ()
        nowAfterStart := true
        startAtStr := "2017-08-01 00:00:00 +0000 UTC"
        bindAddress := fun _ => Except.ok "1F1tAaz5x1HUXrCNLbtMDqcw6o5GNn4xqX"
        getDepositStatuses := fun _ => Except.ok [] }
      { method := "POST", contentType := "application/json"
        jsonBody := some { SkyAddr := "2ZqW8HDDAVoJaqn2MnMtpeVgjVDFZqe8ikF"
                           CoinType := "ETH" } }) = true ∧
    bodyCount (BindHandler
      { decodeBase58Address := fun _ => Except.ok ()
        nowAfterStart := true
        startAtStr := "2017-08-01 00:00:00 +0000 UTC"
        bindAddress := fun _ => Except.ok "1F1tAaz5x1HUXrCNLbtMDqcw6o5GNn4xqX"
        getDepositStatuses := fun _ => Except.ok [] }
      { method := "POST", contentType := "application/json"
        jsonBody := some { SkyAddr := "2ZqW8HDDAVoJaqn2MnMtpeVgjVDFZqe8ikF"
                           CoinType := "ETH" } }) = 2 := by
  decide

/-- Claim C2 (code bug witness): a POST bind request with JSON content
type, a body whose coin type is the unsupported "ETH" and whose sky
address fails base58 decoding. The coin-type switch writes a 400 error
body and falls through, and `verifySkycoinAddress` then writes a second
400 error body: one rejected request, two JSON error bodies. -/
theorem bind_double_error_body :
    responseStatus (BindHandler
      { decodeBase58Address := fun _ => Except.error "Invalid base58 string"
        nowAfterStart := true
        startAtStr := "2017-08-01 00:00:00 +0000 UTC"
        bindAddress := fun _ => Except.ok "1F1tAaz5x1HUXrCNLbtMDqcw6o5GNn4xqX"
        getDepositStatuses := fun _ => Except.ok [] }
      { method := "POST", contentType := "application/json"
        jsonBody := some { SkyAddr := "notanaddress", CoinType := "ETH" } }) = some 400 ∧
    errorBodyCount (BindHandler
      { decodeBase58Address := fun _ => Except.error "Invalid base58 string"
        nowAfterStart := true
        startAtStr := "2017-08-01 00:00:00 +0000 UTC"
        bindAddress := fun _ => Except.ok "1F1tAaz5x1HUXrCNLbtMDqcw6o5GNn4xqX"
        getDepositStatuses := fun _ => Except.ok [] }
      { method := "POST", contentType := "application/json"
        jsonBody := some { SkyAddr := "notanaddress", CoinType := "ETH" } }) = 2 := by
  decide

/-- Claim C3 counterexample: a GET status request with a non-empty valid
address after the start time against a service returning the empty list.
The response is 200, but because the `statuses` struct field carries the
`omitempty` JSON option, the encoded body omits the field entirely, so
the claim that the statuses field is present is false. -/
theorem status_empty_field_omitted :
    responseStatus (StatusHandler
      { decodeBase58Address := fun _ => Except.ok ()
        nowAfterStart := true
        startAtStr := "2017-08-01 00:00:00 +0000 UTC"
        bindAddress := fun _ => Except.ok "1F1tAaz5x1HUXrCNLbtMDqcw6o5GNn4xqX"
        getDepositStatuses := fun _ => Except.ok [] }
      { method := "GET", querySkyAddr := "2ZqW8HDDAVoJaqn2MnMtpeVgjVDFZqe8ikF" })
      = some 200 ∧
    statusesFieldPresent (StatusHandler
      { decodeBase58Address := fun _ => Except.ok ()
        nowAfterStart := true
        startAtStr := "2017-08-01 00:00:00 +0000 UTC"
        bindAddress := fun _ => Except.ok "1F1tAaz5x1HUXrCNLbtMDqcw6o5GNn4xqX"
        getDepositStatuses := fun _ => Except.ok [] }
      { method := "GET", querySkyAddr := "2ZqW8HDDAVoJaqn2MnMtpeVgjVDFZqe8ikF" })
      = false := by
  decide

/-- Claim C3 as amended: for every GET status request with a non-empty
address that decodes, issued after the start time, when the service
returns an empty list with no error the response is 200 and carries the
JSON-encoded empty `StatusResponse` (not an error body); because of the
`omitempty` option its encoding has no fields, so the `statuses` field is
omitted rather than present as an empty list. -/
theorem status_empty_list_ok (env : HandlerEnv) (r : StatusHTTPRequest)
    (hm : r.method = "GET") (ha : r.querySkyAddr ≠ "")
    (hd : env.decodeBase58Address r.querySkyAddr = Except.ok ())
    (ht : env.nowAfterStart = true)
    (hg : env.getDepositStatuses r.querySkyAddr = Except.ok []) :
    responseStatus (StatusHandler env r) = some 200 ∧
    Event.jsonStatusResp { Statuses := [] } ∈ StatusHandler env r ∧
    errorBodyCount (StatusHandler env r) = 0 ∧
    statusResponseJSONFields { Statuses := [] } = [] := by
  simp [StatusHandler, validMethod, verifySkycoinAddress, readyToStart,
        hm, ha, hd, ht, hg, responseStatus, eventStatusCode,
        errorBodyCount, isErrorBody, statusResponseJSONFields]

/-- Witness for the amended claim C3: `status_empty_list_ok` discharged
at a concrete request and environment. -/
theorem status_empty_list_ok_witness :
    responseStatus (StatusHandler
      { decodeBase58Address := fun _ => Except.ok ()
        nowAfterStart := true
        startAtStr := "2017-08-01 00:00:00 +0000 UTC"
        bindAddress := fun _ => Except.error "closed"
        getDepositStatuses := fun _ => Except.ok [] }
      { method := "GET", querySkyAddr := "cBnu9sUvv12dovBmjQKTtfE4rbjMmf3fzW" })
      = some 200 ∧
    Event.jsonStatusResp { Statuses := [] } ∈ StatusHandler
      { decodeBase58Address := fun _ => Except.ok ()
        nowAfterStart := true
        startAtStr := "2017-08-01 00:00:00 +0000 UTC"
        bindAddress := fun _ => Except.error "closed"
        getDepositStatuses := fun _ => Except.ok [] }
      { method := "GET", querySkyAddr := "cBnu9sUvv12dovBmjQKTtfE4rbjMmf3fzW" } ∧
    errorBodyCount (StatusHandler
      { decodeBase58Address := fun _ => Except.ok ()
        nowAfterStart := true
        startAtStr := "2017-08-01 00:00:00 +0000 UTC"
        bindAddress := fun _ => Except.error "closed"
        getDepositStatuses := fun _ => Except.ok [] }
      { method := "GET", querySkyAddr := "cBnu9sUvv12dovBmjQKTtfE4rbjMmf3fzW" }) = 0 ∧
    statusResponseJSONFields { Statuses := [] } = [] :=
  status_empty_list_ok _ _ rfl (by decide) rfl rfl rfl

/-- Claim C5: for every bind or status request that passes method, body
and address-format validation, when the current UTC time is not after
`startAt` the handler writes a 403 error body with the explanatory
message and never calls the external service. -/
theorem before_start_forbidden (env : HandlerEnv) (hb : env.nowAfterStart = false) :
    (∀ r : BindHTTPRequest, ∀ req : bindRequest,
      r.method = "POST" → r.contentType = "application/json" →
      r.jsonBody = some req → req.SkyAddr ≠ "" → req.CoinType = CoinTypeBTC →
      env.decodeBase58Address req.SkyAddr = Except.ok () →
      responseStatus (BindHandler env r) = some 403 ∧
      Event.errResp 403 (some ("Event starts at " ++ env.startAtStr)) ∈ BindHandler env r ∧
      serviceCalled (BindHandler env r) = false) ∧
    (∀ r : StatusHTTPRequest,
      r.method = "GET" → r.querySkyAddr ≠ "" →
      env.decodeBase58Address r.querySkyAddr = Except.ok () →
      responseStatus (StatusHandler env r) = some 403 ∧
      Event.errResp 403 (some ("Event starts at " ++ env.startAtStr)) ∈ StatusHandler env r ∧
      serviceCalled (StatusHandler env r) = false) := by
  constructor
  · intro r req hm hct hb' hsky hct' hd
    simp [BindHandler, validMethod, verifySkycoinAddress, readyToStart, coinTypeSwitch,
          hm, hct, hb', hsky, hct', hd, hb,
          responseStatus, eventStatusCode, serviceCalled]
  · intro r hm ha hd
    simp [StatusHandler, validMethod, verifySkycoinAddress, readyToStart,
          hm, ha, hd, hb, responseStatus, eventStatusCode, serviceCalled]

/-- Witness for claim C5: both clauses of `before_start_forbidden`
discharged at a concrete environment before the start time and concrete
valid requests. -/
theorem before_start_forbidden_witness :
    (responseStatus (BindHandler
      { decodeBase58Address := fun _ => Except.ok ()
        nowAfterStart := false
        startAtStr := "2020-01-01 00:00:00 +0000 UTC"
        bindAddress := fun _ => Except.ok "1F1tAaz5x1HUXrCNLbtMDqcw6o5GNn4xqX"
        getDepositStatuses := fun _ => Except.ok [] }
      { method := "POST", contentType := "application/json"
        jsonBody := some { SkyAddr := "cBnu9sUvv12dovBmjQKTtfE4rbjMmf3fzW"
                           CoinType := "BTC" } }) = some 403 ∧
     Event.errResp 403 (some ("Event starts at " ++ "2020-01-01 00:00:00 +0000 UTC"))
       ∈ BindHandler
      { decodeBase58Address := fun _ => Except.ok ()
        nowAfterStart := false
        startAtStr := "2020-01-01 00:00:00 +0000 UTC"
        bindAddress := fun _ => Except.ok "1F1tAaz5x1HUXrCNLbtMDqcw6o5GNn4xqX"
        getDepositStatuses := fun _ => Except.ok [] }
      { method := "POST", contentType := "application/json"
        jsonBody := some { SkyAddr := "cBnu9sUvv12dovBmjQKTtfE4rbjMmf3fzW"
                           CoinType := "BTC" } } ∧
     serviceCalled (BindHandler
      { decodeBase58Address := fun _ => Except.ok ()
        nowAfterStart := false
        startAtStr := "2020-01-01 00:00:00 +0000 UTC"
        bindAddress := fun _ => Except.ok "1F1tAaz5x1HUXrCNLbtMDqcw6o5GNn4xqX"
        getDepositStatuses := fun _ => Except.ok [] }
      { method := "POST", contentType := "application/json"
        jsonBody := some { SkyAddr := "cBnu9sUvv12dovBmjQKTtfE4rbjMmf3fzW"
                           CoinType := "BTC" } }) = false) ∧
    (responseStatus (StatusHandler
      { decodeBase58Address := fun _ => Except.ok ()
        nowAfterStart := false
        startAtStr := "2020-01-01 00:00:00 +0000 UTC"
        bindAddress := fun _ => Except.ok "1F1tAaz5x1HUXrCNLbtMDqcw6o5GNn4xqX"
        getDepositStatuses := fun _ => Except.ok [] }
      { method := "GET", querySkyAddr := "cBnu9sUvv12dovBmjQKTtfE4rbjMmf3fzW" })
        = some 403 ∧
     Event.errResp 403 (some ("Event starts at " ++ "2020-01-01 00:00:00 +0000 UTC"))
       ∈ StatusHandler
      { decodeBase58Address := fun _ => Except.ok ()
        nowAfterStart := false
        startAtStr := "2020-01-01 00:00:00 +0000 UTC"
        bindAddress := fun _ => Except.ok "1F1tAaz5x1HUXrCNLbtMDqcw6o5GNn4xqX"
        getDepositStatuses := fun _ => Except.ok [] }
      { method := "GET", querySkyAddr := "cBnu9sUvv12dovBmjQKTtfE4rbjMmf3fzW" } ∧
     serviceCalled (StatusHandler
      { decodeBase58Address := fun _ => Except.ok ()
        nowAfterStart := false
        startAtStr := "2020-01-01 00:00:00 +0000 UTC"
        bindAddress := fun _ => Except.ok "1F1tAaz5x1HUXrCNLbtMDqcw6o5GNn4xqX"
        getDepositStatuses := fun _ => Except.ok [] }
      { method := "GET", querySkyAddr := "cBnu9sUvv12dovBmjQKTtfE4rbjMmf3fzW" })
        = false) :=
  ⟨(before_start_forbidden _ rfl).1 _ _ rfl rfl rfl (by decide) rfl rfl,
   (before_start_forbidden _ rfl).2 _ rfl (by decide) rfl⟩

/-- Claim C6: a bind request whose method is not POST gets status 405
with the Allow header set to POST, and a POST bind request whose
Content-Type header is not application/json gets status 415. -/
theorem bind_method_content_type (env : HandlerEnv) (r : BindHTTPRequest) :
    (r.method ≠ "POST" →
      responseStatus (BindHandler env r) = some 405 ∧
      Event.setHeader "Allow" "POST" ∈ BindHandler env r) ∧
    (r.method = "POST" → r.contentType ≠ "application/json" →
      responseStatus (BindHandler env r) = some 415) := by
  constructor
  · intro hm
    have h1 : String.intercalate ", " ["POST"] = "POST" := by decide
    simp [BindHandler, validMethod, hm, h1, responseStatus, eventStatusCode]
  · intro hm hct
    simp [BindHandler, validMethod, hm, hct, responseStatus, eventStatusCode]

/-- Witness for claim C6: both clauses of `bind_method_content_type`
discharged at concrete requests (a GET, and a POST with text/plain). -/
theorem bind_method_content_type_witness :
    (responseStatus (BindHandler
      { decodeBase58Address := fun _ => Except.ok ()
        nowAfterStart := true
        startAtStr := "2017-08-01 00:00:00 +0000 UTC"
        bindAddress := fun _ => Except.ok "1F1tAaz5x1HUXrCNLbtMDqcw6o5GNn4xqX"
        getDepositStatuses := fun _ => Except.ok [] }
      { method := "GET", contentType := "application/json"
        jsonBody := none }) = some 405 ∧
     Event.setHeader "Allow" "POST" ∈ BindHandler
      { decodeBase58Address := fun _ => Except.ok ()
        nowAfterStart := true
        startAtStr := "2017-08-01 00:00:00 +0000 UTC"
        bindAddress := fun _ => Except.ok "1F1tAaz5x1HUXrCNLbtMDqcw6o5GNn4xqX"
        getDepositStatuses := fun _ => Except.ok [] }
      { method := "GET", contentType := "application/json"
        jsonBody := none }) ∧
    responseStatus (BindHandler
      { decodeBase58Address := fun _ => Except.ok ()
        nowAfterStart := true
        startAtStr := "2017-08-01 00:00:00 +0000 UTC"
        bindAddress := fun _ => Except.ok "1F1tAaz5x1HUXrCNLbtMDqcw6o5GNn4xqX"
        getDepositStatuses := fun _ => Except.ok [] }
      { method := "POST", contentType := "text/plain"
        jsonBody := none }) = some 415 :=
  ⟨(bind_method_content_type _ _).1 (by decide),
   (bind_method_content_type _ _).2 rfl (by decide)⟩

/-- Claim C10: every JSON success body the bind handler writes carries
the constant BTC coin type, whatever coin type string the request body
contained. -/
theorem bind_response_coin_type_const (env : HandlerEnv) (r : BindHTTPRequest)
    (resp : BindResponse) (h : Event.jsonResp resp ∈ BindHandler env r) :
    resp.CoinType = CoinTypeBTC := by
  unfold BindHandler at h
  by_cases hm : r.method = "POST"
  · by_cases hct : r.contentType = "application/json"
    · cases hb : r.jsonBody with
      | none => rw [hb] at h; simp [validMethod, hm, hct] at h
      | some req =>
        rw [hb] at h
        by_cases hsky : req.SkyAddr = ""
        · simp [validMethod, hm, hct, hsky] at h
        · cases hd : env.decodeBase58Address req.SkyAddr with
          | error e =>
            simp [validMethod, verifySkycoinAddress, coinTypeSwitch,
                  hm, hct, hsky, hd] at h
          | ok u =>
            cases hrs : env.nowAfterStart with
            | false =>
              simp [validMethod, verifySkycoinAddress, readyToStart, coinTypeSwitch,
                    hm, hct, hsky, hd, hrs] at h
            | true =>
              cases hba : env.bindAddress req.SkyAddr with
              | error e =>
                simp [validMethod, verifySkycoinAddress, readyToStart, coinTypeSwitch,
                      hm, hct, hsky, hd, hrs, hba] at h
              | ok btcAddr =>
                simp [validMethod, verifySkycoinAddress, readyToStart, coinTypeSwitch,
                      hm, hct, hsky, hd, hrs, hba] at h
                simp [h]
    · simp [validMethod, hm, hct] at h
  · simp [validMethod, hm] at h

/-- Witness for claim C10: `bind_response_coin_type_const` discharged at
a concrete request whose body asks for coin type "LTC" and whose handler
trace nevertheless contains a success body with coin type BTC. -/
theorem bind_response_coin_type_const_witness :
    ({ DepositAddress := "1F1tAaz5x1HUXrCNLbtMDqcw6o5GNn4xqX",
       CoinType := "BTC" } : BindResponse).CoinType = CoinTypeBTC :=
  bind_response_coin_type_const
    { decodeBase58Address := fun _ => Except.ok ()
      nowAfterStart := true
      startAtStr := "2017-08-01 00:00:00 +0000 UTC"
      bindAddress := fun _ => Except.ok "1F1tAaz5x1HUXrCNLbtMDqcw6o5GNn4xqX"
      getDepositStatuses := fun _ => Except.ok [] }
    { method := "POST", contentType := "application/json"
      jsonBody := some { SkyAddr := "cBnu9sUvv12dovBmjQKTtfE4rbjMmf3fzW"
                         CoinType := "LTC" } }
    { DepositAddress := "1F1tAaz5x1HUXrCNLbtMDqcw6o5GNn4xqX", CoinType := "BTC" }
    (by decide)
